import Mathlib

/-!
# Verification of `nativecompile` runtime support (`src/nativecompile/pyinternals.c`)

This file is a shallow embedding of the C extension module `pyinternals.c`,
which provides (a) a Call Dispatch Bridge (`call_function` and its helpers
`fast_function`, `update_keyword_args`, `load_args`, `do_call`, `err_args`,
mirroring Python's `ceval.c`) and (b) an Executable Code Loader
(`CompiledCode_new` / `CompiledCode_call`).

Modelling conventions:
* Python objects are opaque identifiers (`ObjId := Nat`); an environment
  `PyEnv : ObjId → ObjKind` records what kind of callable an identifier is
  (`PyCFunction_Check`, `PyMethod_Check`, `PyFunction_Check` in the C read
  the object's type; here they read the environment).
* The argument stack segment is a `List ObjId` indexed from the current
  stack top: `EXT_POP` in the C is `(*(STACK_POINTER)++)`, i.e. popping
  reads the current slot and *increments* the pointer, so the model keeps
  the memory fixed and advances an index `sp`.  The callee lives at index
  `sp + n` (`pfunc = pp_stack + n` in the C).
* Reference-count traffic is recorded as an event trace: `Py_INCREF x`
  emits `Ev.inc x`, `Py_DECREF x` emits `Ev.dec x`.  Freeing a freshly
  built tuple/dict/frame (refcount 1, sole owner) releases its elements,
  so those `Py_DECREF`s emit one `Ev.dec` per contained reference.
  `++tstate->recursion_depth` / `--tstate->recursion_depth` emit
  `Ev.recIncr` / `Ev.recDecr`, and `PyEval_EvalFrameEx` emits
  `Ev.evalFrame locals`.
* External host-runtime entry points (the C-function bodies,
  `PyEval_EvalFrameEx`, `PyEval_EvalCodeEx`, allocation success, name
  formatting helpers) are oracle parameters collected in `Host`; a `none`
  result models a NULL return with an exception set by the callee.
* Errors raised by this module itself are modelled precisely
  (`PyErr.typeError msg`, `PyErr.ioError filename`, `PyErr.osError`);
  failures signalled by external calls are `PyErr.external`.
-/

/-- Opaque Python object reference (pointer identity). -/
abbrev ObjId := Nat

/-- Reference-count / execution events recorded by the model. -/
inductive Ev where
  /-- `Py_INCREF o` -/
  | inc (o : ObjId)
  /-- `Py_DECREF o` (for a container freed by the `DECREF`, one event per
  released inner reference is emitted instead, see module docstring) -/
  | dec (o : ObjId)
  /-- `++tstate->recursion_depth` -/
  | recIncr
  /-- `--tstate->recursion_depth` -/
  | recDecr
  /-- `PyEval_EvalFrameEx` on a frame whose fast locals are `locals` -/
  | evalFrame (locals : List ObjId)
deriving DecidableEq, Repr

/-- Net number of releases of `o` recorded in a trace (decrefs minus
increfs).  A slot whose object entered dispatch with one stack-owned
reference is "released exactly once" when this is `1` (per slot holding
that object). -/
def netRefs (t : List Ev) (o : ObjId) : Int :=
  (t.count (Ev.dec o) : Int) - (t.count (Ev.inc o) : Int)

/-- Errors: `typeError` for `PyErr_Format(PyExc_TypeError, ...)` raised by
this module, `ioError` for `PyErr_SetFromErrnoWithFilename(PyExc_IOError,
filename)`, `osError` for `PyErr_SetFromErrno(PyExc_OSError)` (no
filename), `external` for a failure signalled by an external call. -/
inductive PyErr where
  | typeError (msg : String)
  | ioError (filename : String)
  | osError
  | external
deriving DecidableEq, Repr

/-- `METH_NOARGS` method flag (CPython value). -/
def METH_NOARGS : Nat := 4

/-- `METH_O` method flag (CPython value). -/
def METH_O : Nat := 8

/-- `CO_OPTIMIZED` code flag (CPython value). -/
def CO_OPTIMIZED : Nat := 1

/-- `CO_NEWLOCALS` code flag (CPython value). -/
def CO_NEWLOCALS : Nat := 2

/-- `CO_NOFREE` code flag (CPython value). -/
def CO_NOFREE : Nat := 64

/-- The exact flag word `CO_OPTIMIZED | CO_NEWLOCALS | CO_NOFREE` that
`fast_function` compares `co_flags` against. -/
def fastCoFlags : Nat := CO_OPTIMIZED ||| CO_NEWLOCALS ||| CO_NOFREE

/-- The fields of a `PyCodeObject` read by `fast_function`. -/
structure PyCode where
  co_argcount : Nat
  co_kwonlyargcount : Nat
  co_flags : Nat
deriving DecidableEq, Repr

/-- The fields of a `PyFunctionObject` read by `fast_function`
(`PyFunction_GET_CODE/GLOBALS/DEFAULTS/KW_DEFAULTS/CLOSURE`). -/
structure PyFunc where
  code : PyCode
  globals : ObjId
  argdefs : Option (List ObjId)
  kwdefs : Option ObjId
  closure : Option ObjId
deriving DecidableEq, Repr

/-- Kind of object behind an `ObjId`, as far as the bridge's type tests
are concerned. -/
inductive ObjKind where
  /-- a `PyCFunctionObject` with its `ml_flags`, `ml_name` and `m_self` -/
  | cfunc (flags : Nat) (name : String) (cself : Option ObjId)
  /-- a bound/unbound `PyMethodObject`: `im_self` and `im_func` -/
  | method (mself : Option ObjId) (mfunc : ObjId)
  /-- a `PyFunctionObject` -/
  | pyfunc (fn : PyFunc)
  /-- any other object -/
  | plain
deriving DecidableEq, Repr

/-- Type environment: what kind of object each identifier is. -/
abbrev PyEnv := ObjId → ObjKind

/-- `PyCFunction_Check(func)` -/
def PyCFunction_Check (env : PyEnv) (o : ObjId) : Bool :=
  match env o with
  | ObjKind.cfunc _ _ _ => true
  | _ => false

/-- `PyCFunction_GET_FLAGS(func)` -/
def PyCFunction_GET_FLAGS (env : PyEnv) (o : ObjId) : Nat :=
  match env o with
  | ObjKind.cfunc flags _ _ => flags
  | _ => 0

/-- `((PyCFunctionObject *)func)->m_ml->ml_name` -/
def PyCFunction_GET_NAME (env : PyEnv) (o : ObjId) : String :=
  match env o with
  | ObjKind.cfunc _ name _ => name
  | _ => ""

/-- `PyMethod_Check(func)` -/
def PyMethod_Check (env : PyEnv) (o : ObjId) : Bool :=
  match env o with
  | ObjKind.method _ _ => true
  | _ => false

/-- `PyMethod_GET_SELF(func)` -/
def PyMethod_GET_SELF (env : PyEnv) (o : ObjId) : Option ObjId :=
  match env o with
  | ObjKind.method s _ => s
  | _ => none

/-- `PyMethod_GET_FUNCTION(func)` -/
def PyMethod_GET_FUNCTION (env : PyEnv) (o : ObjId) : ObjId :=
  match env o with
  | ObjKind.method _ f => f
  | _ => 0

/-- `PyFunction_Check(func)` -/
def PyFunction_Check (env : PyEnv) (o : ObjId) : Bool :=
  match env o with
  | ObjKind.pyfunc _ => true
  | _ => false

/-- The `PyFunctionObject` behind an id (only read after
`PyFunction_Check` succeeded). -/
def PyFunction_GET (env : PyEnv) (o : ObjId) : PyFunc :=
  match env o with
  | ObjKind.pyfunc fn => fn
  | _ => { code := { co_argcount := 0, co_kwonlyargcount := 0, co_flags := 0 },
           globals := 0, argdefs := none, kwdefs := none, closure := none }

/-- Oracles for the external host-runtime entry points invoked by the
bridge.  Each `Option ObjId` result is the returned object, `none`
modelling a NULL return with an exception set by the external code.  The
`*Ok` booleans model success of external allocations. -/
structure Host where
  /-- `(*meth)(self, NULL)` for a `METH_NOARGS` C function, keyed by the
  callee object -/
  methNoArg : ObjId → Option ObjId
  /-- `(*meth)(self, arg)` for a `METH_O` C function -/
  methO : ObjId → ObjId → Option ObjId
  /-- `PyCFunction_Call(func, callargs, kwdict)` -/
  cfunCall : ObjId → Option (List ObjId) → Option (List (ObjId × ObjId)) → Option ObjId
  /-- `PyObject_Call(func, callargs, kwdict)` -/
  objCall : ObjId → Option (List ObjId) → Option (List (ObjId × ObjId)) → Option ObjId
  /-- `PyEval_EvalFrameEx` on a fresh frame for `code`/`globals` whose
  fast locals have been filled with the given list -/
  evalFrame : PyCode → ObjId → List ObjId → Option ObjId
  /-- `PyEval_EvalCodeEx(co, globals, NULL, args, na, kws, nk, d, nd,
  kwdefs, closure)`; the two lists are the words the C hands over through
  its `args`/`kws` pointers -/
  evalCodeEx : PyCode → ObjId → List ObjId → Nat → List ObjId → Nat →
      List ObjId → Nat → Option ObjId → Option ObjId → Option ObjId
  /-- `PyEval_GetFuncName(func)` -/
  funcName : ObjId → String
  /-- `PyEval_GetFuncDesc(func)` -/
  funcDesc : ObjId → String
  /-- the `%U` rendering of a keyword key object -/
  keyRepr : ObjId → String
  /-- `PyTuple_New` succeeds -/
  tupleNewOk : Bool
  /-- `PyDict_New` succeeds -/
  dictNewOk : Bool
  /-- `PyDict_Copy` succeeds -/
  dictCopyOk : Bool
  /-- `PyDict_SetItem` succeeds -/
  setItemOk : Bool
  /-- `PyFrame_New` succeeds -/
  frameNewOk : Bool

/-- Error resulting from an external call: a NULL result means the callee
set an exception. -/
def extErr (x : Option ObjId) : Option PyErr :=
  if x.isNone then some PyErr.external else none

/-- Releases performed when a freshly built argument tuple is freed by
`Py_XDECREF(callargs)` (the tuple owns one reference per item). -/
def tupleFreeEvs : Option (List ObjId) → List Ev
  | none => []
  | some l => l.map Ev.dec

/-- Releases performed when a freshly built keyword dict is freed by
`Py_DECREF(kwdict)` (the dict owns one reference per key and value). -/
def dictFreeEvs (d : List (ObjId × ObjId)) : List Ev :=
  (d.map (fun kv => [Ev.dec kv.1, Ev.dec kv.2])).flatten

/-- The popped items of `load_args`'s loop
`while (--na >= 0) { w = EXT_POP(*pp_stack); PyTuple_SET_ITEM(args, na, w); }`:
the first popped item goes to the last tuple slot.  Returns the tuple
contents (index order) and the advanced stack index. -/
def load_args_loop (stack : List ObjId) (sp : Nat) : Nat → List ObjId × Nat
  | 0 => ([], sp)
  | Nat.succ k =>
    let w := stack.getD sp 0
    let r := load_args_loop stack (sp + 1) k
    (r.1 ++ [w], r.2)

/-- `load_args`: build a tuple of the `na` positional arguments
(reassembled in original left-to-right order).  `PyTuple_New` failure
returns NULL before anything is popped. -/
def load_args (host : Host) (stack : List ObjId) (sp na : Nat) :
    Option (List ObjId) × Nat :=
  if host.tupleNewOk then
    let r := load_args_loop stack sp na
    (some r.1, r.2)
  else
    (none, sp)

/-- Result of `update_keyword_args`. -/
structure KwOut where
  kw : Option (List (ObjId × ObjId))
  sp : Nat
  tr : List Ev
  err : Option PyErr
deriving Repr

/-- The `while (--nk >= 0)` loop of `update_keyword_args`: pop a value
then a key; a key already present raises the duplicate-keyword
`TypeError` and frees the dict; otherwise `PyDict_SetItem` stores the
pair (acquiring its own references) and the popped references are
dropped.  Keys are compared by identity of the modelled object
(`PyDict_GetItem` equality). -/
def update_kw_loop (host : Host) (funcId : ObjId) (stack : List ObjId) :
    Nat → Nat → List (ObjId × ObjId) → KwOut
  | 0, sp, d => { kw := some d, sp := sp, tr := [], err := none }
  | Nat.succ k, sp, d =>
    let value := stack.getD sp 0
    let key := stack.getD (sp + 1) 0
    if d.any (fun kv => kv.1 == key) then
      { kw := none, sp := sp + 2,
        tr := [Ev.dec key, Ev.dec value] ++ dictFreeEvs d,
        err := some (PyErr.typeError
          (host.funcName funcId ++ host.funcDesc funcId ++
           " got multiple values for keyword argument " ++ "\x27" ++
           host.keyRepr key ++ "\x27")) }
    else if host.setItemOk then
      let rest := update_kw_loop host funcId stack k (sp + 2) (d ++ [(key, value)])
      { kw := rest.kw, sp := rest.sp,
        tr := [Ev.inc key, Ev.inc value, Ev.dec key, Ev.dec value] ++ rest.tr,
        err := rest.err }
    else
      { kw := none, sp := sp + 2,
        tr := [Ev.dec key, Ev.dec value] ++ dictFreeEvs d,
        err := some PyErr.external }

/-- `update_keyword_args(orig_kwdict, nk, pp_stack, func)`.  A NULL base
starts from a new empty dict; a supplied base is copied first
(`PyDict_Copy`) and the original released — the original mapping object
itself is released, not its entries (the copy holds its own references),
so no per-entry event is emitted for it. -/
def update_keyword_args (host : Host) (orig : Option (List (ObjId × ObjId)))
    (nk : Nat) (stack : List ObjId) (sp : Nat) (funcId : ObjId) : KwOut :=
  let start : Option (List (ObjId × ObjId)) :=
    match orig with
    | none => if host.dictNewOk then some [] else none
    | some d => if host.dictCopyOk then some d else none
  match start with
  | none => { kw := none, sp := sp, tr := [], err := some PyErr.external }
  | some d0 => update_kw_loop host funcId stack nk sp d0

/-- Result of `fast_function` / `do_call` (returned object, advanced
stack index, event trace, pending error). -/
structure SubOut where
  x : Option ObjId
  sp : Nat
  tr : List Ev
  err : Option PyErr
deriving Repr

/-- The fast locals filled by `fast_function`'s copy loop
`stack = (*pp_stack) + n - 1; for (i = 0; i < n; i++) fastlocals[i] = *stack--;`:
local `i` receives the word at index `sp + n - 1 - i`. -/
def fastlocalsOf (stack : List ObjId) (sp n : Nat) : List ObjId :=
  (List.range n).map (fun i => stack.getD (sp + n - 1 - i) 0)

/-- The eligibility test of `fast_function`'s fast path:
`argdefs == NULL && co->co_argcount == n && co->co_kwonlyargcount == 0 &&
nk == 0 && co->co_flags == (CO_OPTIMIZED | CO_NEWLOCALS | CO_NOFREE)`. -/
def fastEligible (fn : PyFunc) (n nk : Nat) : Bool :=
  fn.argdefs == none && fn.code.co_argcount == n &&
  fn.code.co_kwonlyargcount == 0 && nk == 0 && fn.code.co_flags == fastCoFlags

/-- `fast_function(func, pp_stack, n, na, nk)`.  On the fast path a frame
is allocated, each of the `n` argument slots is copied into the frame's
fast locals **with** a `Py_INCREF`, the frame is executed, and the
recursion-depth bump brackets `Py_DECREF(f)` (which releases the frame
and with it the copied locals).  The stack index is *not* advanced on
either path.  The general path calls `PyEval_EvalCodeEx` with the word
sequences its `args`/`kws` pointers denote. -/
def fast_function (host : Host) (fn : PyFunc) (stack : List ObjId)
    (sp n na nk : Nat) : SubOut :=
  if fastEligible fn n nk then
    if host.frameNewOk then
      let fastlocals := fastlocalsOf stack sp n
      let retval := host.evalFrame fn.code fn.globals fastlocals
      { x := retval, sp := sp,
        tr := fastlocals.map Ev.inc
          ++ [Ev.evalFrame fastlocals, Ev.recIncr]
          ++ fastlocals.map Ev.dec ++ [Ev.recDecr],
        err := extErr retval }
    else
      { x := none, sp := sp, tr := [], err := some PyErr.external }
  else
    let d := fn.argdefs.getD []
    let args := (List.range na).map (fun i => stack.getD (sp + n - 1 + i) 0)
    let kws := (List.range (2 * nk)).map (fun i => stack.getD (sp + 2 * nk - 1 + i) 0)
    let r := host.evalCodeEx fn.code fn.globals args na kws nk d d.length
      fn.kwdefs fn.closure
    { x := r, sp := sp, tr := [], err := extErr r }

/-- `do_call(func, pp_stack, na, nk)`: build the keyword dict (if any)
and the positional tuple, call through `PyCFunction_Call` or
`PyObject_Call`, then `Py_XDECREF` the tuple and the dict (releasing
their contents). -/
def do_call (host : Host) (env : PyEnv) (funcId : ObjId) (stack : List ObjId)
    (sp na nk : Nat) : SubOut :=
  if nk > 0 then
    let k := update_keyword_args host none nk stack sp funcId
    match k.kw with
    | none => { x := none, sp := k.sp, tr := k.tr, err := k.err }
    | some kwd =>
      let r := load_args host stack k.sp na
      match r.1 with
      | none =>
        { x := none, sp := r.2, tr := k.tr ++ dictFreeEvs kwd,
          err := some PyErr.external }
      | some args =>
        let x := if PyCFunction_Check env funcId then
            host.cfunCall funcId (some args) (some kwd)
          else
            host.objCall funcId (some args) (some kwd)
        { x := x, sp := r.2,
          tr := k.tr ++ args.map Ev.dec ++ dictFreeEvs kwd,
          err := extErr x }
  else
    let r := load_args host stack sp na
    match r.1 with
    | none => { x := none, sp := r.2, tr := [], err := some PyErr.external }
    | some args =>
      let x := if PyCFunction_Check env funcId then
          host.cfunCall funcId (some args) none
        else
          host.objCall funcId (some args) none
      { x := x, sp := r.2, tr := args.map Ev.dec, err := extErr x }

/-- `err_args(func, flags, nargs)`: the argument-count `TypeError` for a
restricted-convention C function. -/
def err_args (name : String) (flags : Nat) (nargs : Nat) : PyErr :=
  if flags &&& METH_NOARGS != 0 then
    PyErr.typeError (name ++ "() takes no arguments (" ++ toString nargs ++ " given)")
  else
    PyErr.typeError (name ++ "() takes exactly one argument (" ++ toString nargs ++ " given)")

/-- The final cleanup loop of `call_function`:
`while (pp_stack > pfunc) { w = EXT_POP(pp_stack); Py_DECREF(w); }`.
Because `EXT_POP` *increments* the pointer, the guard compares the
current index against `pfunc` from below; the fuel bounds the walk by the
modelled memory (the C loop would walk off the segment if it ever ran,
since popping moves the pointer further above `pfunc`). -/
def drainLoop : Nat → List ObjId → Nat → Nat → Nat × List Ev
  | 0, _, sp, _ => (sp, [])
  | Nat.succ fuel, stack, sp, pfunc =>
    if pfunc < sp then
      let w := stack.getD sp 0
      let r := drainLoop fuel stack (sp + 1) pfunc
      (r.1, Ev.dec w :: r.2)
    else
      (sp, [])

/-- Result of one dispatch through `call_function`: returned object,
final stack index, final stack memory (the bound-method rewrite stores
into the callee slot), event trace, pending error. -/
structure CallOut where
  result : Option ObjId
  sp : Nat
  stackF : List ObjId
  trace : List Ev
  err : Option PyErr
deriving Repr

/-- `call_function(pp_stack, oparg)`: the Call Dispatch Bridge.
`na = oparg & 0xff`, `nk = (oparg >> 8) & 0xff`, `n = na + 2*nk`,
`pfunc = pp_stack + n` (the callee slot).  Tier order as in the C:
restricted C functions with `nk == 0` (METH_NOARGS / METH_O / generic
positional), otherwise the bound-method rewrite followed by
`fast_function` for plain functions or `do_call` for everything else,
and finally the cleanup loop. -/
def call_function (host : Host) (env : PyEnv) (stack : List ObjId)
    (sp0 oparg : Nat) : CallOut :=
  let na := oparg % 256
  let nk := oparg / 256 % 256
  let n := na + 2 * nk
  let pfunc := sp0 + n
  let func := stack.getD pfunc 0
  let pre : CallOut :=
    if PyCFunction_Check env func && nk == 0 then
      let flags := PyCFunction_GET_FLAGS env func
      if flags &&& (METH_NOARGS ||| METH_O) != 0 then
        if flags &&& METH_NOARGS != 0 && na == 0 then
          let x := host.methNoArg func
          { result := x, sp := sp0, stackF := stack, trace := [], err := extErr x }
        else if flags &&& METH_O != 0 && na == 1 then
          let arg := stack.getD sp0 0
          let x := host.methO func arg
          { result := x, sp := sp0 + 1, stackF := stack,
            trace := [Ev.dec arg], err := extErr x }
        else
          { result := none, sp := sp0, stackF := stack, trace := [],
            err := some (err_args (PyCFunction_GET_NAME env func) flags na) }
      else
        let r := load_args host stack sp0 na
        let x := host.cfunCall func r.1 none
        { result := x, sp := r.2, stackF := stack,
          trace := tupleFreeEvs r.1, err := extErr x }
    else
      if PyMethod_Check env func && (PyMethod_GET_SELF env func).isSome then
        let s := (PyMethod_GET_SELF env func).getD 0
        let f2 := PyMethod_GET_FUNCTION env func
        let stack2 := stack.set pfunc s
        let sub := if PyFunction_Check env f2 then
            fast_function host (PyFunction_GET env f2) stack2 sp0 (n + 1) (na + 1) nk
          else
            do_call host env f2 stack2 sp0 (na + 1) nk
        { result := sub.x, sp := sub.sp, stackF := stack2,
          trace := [Ev.inc s, Ev.inc f2, Ev.dec func] ++ sub.tr ++ [Ev.dec f2],
          err := sub.err }
      else
        let sub := if PyFunction_Check env func then
            fast_function host (PyFunction_GET env func) stack sp0 n na nk
          else
            do_call host env func stack sp0 na nk
        { result := sub.x, sp := sub.sp, stackF := stack,
          trace := Ev.inc func :: (sub.tr ++ [Ev.dec func]),
          err := sub.err }
  let d := drainLoop (pre.stackF.length + 1) pre.stackF pre.sp pfunc
  { result := pre.result, sp := d.1, stackF := pre.stackF,
    trace := pre.trace ++ d.2, err := pre.err }

/-- The `CompiledCode` object built by the Executable Code Loader (the
`USE_MMAP` configuration selected on Linux): the kept-alive code object,
the mapped entry address, the backing file descriptor and the mapped
length. -/
structure CompiledCode where
  code : ObjId
  entryAddr : Nat
  fd : Nat
  len : Nat
deriving DecidableEq, Repr

/-- Filesystem / platform oracles for `CompiledCode_new` (`USE_MMAP`
path): `open(filename, O_RDONLY)`, `lseek(fd, 0, SEEK_END)`,
`lseek(fd, 0, SEEK_SET)`, `mmap(0, len, PROT_READ|PROT_EXEC,
MAP_PRIVATE, fd, 0)` (returning the mapped address or `MAP_FAILED`), and
`type->tp_alloc`. -/
structure FS where
  openFile : String → Option Nat
  seekEnd : Nat → Option Nat
  seekSetOk : Nat → Bool
  mmapRes : Nat → Nat → Option Nat
  allocOk : Bool

/-- `CompiledCode_new(type, args, kwds)` after argument parsing, on the
`USE_MMAP` path: allocate, retain the code object, open the file,
determine its length, map it read+execute.  Every failure path releases
the partial object (whose destructor drops the retained code object) and
returns NULL; `open`/`lseek` failures raise `IOError` carrying the
filename (`io_error` label), while an `mmap` failure raises a plain
`OSError` via `PyErr_SetFromErrno` and jumps straight to `error`. -/
def CompiledCode_new (fs : FS) (filename : String) (codeObj : ObjId) :
    Option CompiledCode × Option PyErr × List Ev :=
  if fs.allocOk then
    match fs.openFile filename with
    | none =>
      (none, some (PyErr.ioError filename), [Ev.inc codeObj, Ev.dec codeObj])
    | some fd =>
      match fs.seekEnd fd with
      | none =>
        (none, some (PyErr.ioError filename), [Ev.inc codeObj, Ev.dec codeObj])
      | some len =>
        if fs.seekSetOk fd then
          match fs.mmapRes fd len with
          | none => (none, some PyErr.osError, [Ev.inc codeObj, Ev.dec codeObj])
          | some addr =>
            (some { code := codeObj, entryAddr := addr, fd := fd, len := len },
             none, [Ev.inc codeObj])
        else
          (none, some (PyErr.ioError filename), [Ev.inc codeObj, Ev.dec codeObj])
  else
    (none, some PyErr.external, [])

/-- `CompiledCode_call(self, args, kw)`: `return self->entry();`.
`entryFn` gives the semantics of the machine code mapped at each
address; the caller-supplied positional and keyword arguments are in the
signature only because the `tp_call` slot receives them. -/
def CompiledCode_call (entryFn : Nat → Option ObjId) (self : CompiledCode)
    (args : List ObjId) (kw : Option (List (ObjId × ObjId))) : Option ObjId :=
  entryFn self.entryAddr

/-- `CompiledCode_dealloc(self)` for a successfully constructed object:
unmap the region and close the descriptor first, release the code object
second. -/
def CompiledCode_dealloc (self : CompiledCode) : List Ev :=
  [Ev.dec self.code]

/-- Modelled from the spec: the host runtime's *general function-call
protocol* (`PyEval_EvalCodeEx`, an external collaborator, is not part of
this repository's source), restricted to the differential-oracle
scenario of §8: a function with no default values and no keyword-only
parameters, called with exactly `co_argcount` positional arguments and
no keywords, binds the positional slice to its parameters in declared
order and evaluates its code; calls outside that scenario are not part
of the oracle. -/
def generalCallSpec (host : Host) (fn : PyFunc) (posArgs : List ObjId) : Option ObjId :=
  if fn.argdefs = none ∧ fn.code.co_kwonlyargcount = 0 ∧
      fn.code.co_argcount = posArgs.length then
    host.evalFrame fn.code fn.globals posArgs
  else
    none

/-- `pat` starts the character list `s`. -/
def chStarts : List Char → List Char → Bool
  | _, [] => true
  | [], _ :: _ => false
  | c :: cs, p :: ps => c == p && chStarts cs ps

/-- `pat` occurs inside the character list. -/
def chHas (pat : List Char) : List Char → Bool
  | [] => pat.isEmpty
  | c :: cs => chStarts (c :: cs) pat || chHas pat cs

/-- `pat` occurs as a substring of `s`. -/
def strContains (s pat : String) : Bool :=
  chHas pat.data s.data

/-- A fully successful host: every external call returns a distinctive
value, every allocation succeeds.  Used for concrete instantiations. -/
def hostOk : Host where
  methNoArg := fun _ => some 40
  methO := fun _ a => some (100 + a)
  cfunCall := fun _ _ _ => some 42
  objCall := fun _ _ _ => some 43
  evalFrame := fun _ _ ls => some (200 + ls.length)
  evalCodeEx := fun _ _ _ _ _ _ _ _ _ _ => some 44
  funcName := fun _ => "f"
  funcDesc := fun _ => "()"
  keyRepr := fun _ => "x"
  tupleNewOk := true
  dictNewOk := true
  dictCopyOk := true
  setItemOk := true
  frameNewOk := true

/-- Plain interpreted function, zero parameters, fast-path eligible. -/
def fn0 : PyFunc where
  code := { co_argcount := 0, co_kwonlyargcount := 0, co_flags := 67 }
  globals := 50
  argdefs := none
  kwdefs := none
  closure := none

/-- Plain interpreted function, one required positional parameter,
fast-path eligible. -/
def fn1 : PyFunc where
  code := { co_argcount := 1, co_kwonlyargcount := 0, co_flags := 67 }
  globals := 50
  argdefs := none
  kwdefs := none
  closure := none

/-- Plain interpreted function, three required positional parameters,
fast-path eligible (underlying function of the bound-method scenario). -/
def fn2 : PyFunc where
  code := { co_argcount := 3, co_kwonlyargcount := 0, co_flags := 67 }
  globals := 50
  argdefs := none
  kwdefs := none
  closure := none

/-- Concrete object environment: `7` a `METH_NOARGS` C function `g`,
`8` a `METH_O` C function `h`, `9` the one-parameter function, `10` a
method binding instance `11` to function `15`, `14` the zero-parameter
function, `15` the three-parameter function; everything else plain. -/
def env1 : PyEnv := fun o =>
  if o == 7 then ObjKind.cfunc METH_NOARGS "g" none
  else if o == 8 then ObjKind.cfunc METH_O "h" none
  else if o == 9 then ObjKind.pyfunc fn1
  else if o == 10 then ObjKind.method (some 11) 15
  else if o == 14 then ObjKind.pyfunc fn0
  else if o == 15 then ObjKind.pyfunc fn2
  else ObjKind.plain

/-- Filesystem on which `open` fails (nonexistent path). -/
def fsOpenFail : FS where
  openFile := fun _ => none
  seekEnd := fun _ => some 10
  seekSetOk := fun _ => true
  mmapRes := fun _ _ => some 4096
  allocOk := true

/-- Filesystem on which `open` and the length determination succeed but
`mmap` fails. -/
def fsMmapFail : FS where
  openFile := fun _ => some 3
  seekEnd := fun _ => some 10
  seekSetOk := fun _ => true
  mmapRes := fun _ _ => none
  allocOk := true

/-- A host like `hostOk` whose `PyEval_EvalCodeEx` oracle returns an
injective encoding of the positional word sequence it receives
(`foldl (a * 100 + x) 1` over words < 100), making the marshalled
arguments observable in the dispatch result. -/
def hostEnc : Host where
  methNoArg := fun _ => some 40
  methO := fun _ a => some (100 + a)
  cfunCall := fun _ _ _ => some 42
  objCall := fun _ _ _ => some 43
  evalFrame := fun _ _ ls => some (200 + ls.length)
  evalCodeEx := fun _ _ args _ _ _ _ _ _ _ => some (args.foldl (fun a x => a * 100 + x) 1)
  funcName := fun _ => "f"
  funcDesc := fun _ => "()"
  keyRepr := fun _ => "x"
  tupleNewOk := true
  dictNewOk := true
  dictCopyOk := true
  setItemOk := true
  frameNewOk := true

/-- Interpreted function with three positional parameters and one
declared default value: `argdefs` is non-NULL, so the fast path is
ineligible and dispatch goes through `fast_function`'s general
branch. -/
def fn3 : PyFunc where
  code := { co_argcount := 3, co_kwonlyargcount := 0, co_flags := 67 }
  globals := 50
  argdefs := some [99]
  kwdefs := none
  closure := none

/-- Environment for the ineligible bound-method scenario: `20` is a
method binding instance `21` to function `22`, which is `fn3`. -/
def env2 : PyEnv := fun o =>
  if o == 20 then ObjKind.method (some 21) 22
  else if o == 22 then ObjKind.pyfunc fn3
  else ObjKind.plain

/-- Filesystem on which `open` succeeds but the length determination
(`lseek` to the end) fails. -/
def fsSeekFail : FS where
  openFile := fun _ => some 3
  seekEnd := fun _ => none
  seekSetOk := fun _ => true
  mmapRes := fun _ _ => some 4096
  allocOk := true

/-! ## Helper lemmas -/

/-- The final cleanup loop of `call_function` does nothing whenever the
current index has not passed the callee slot — which, because popping
moves the index *towards* `pfunc` from below, is the case on every path
through the bridge. -/
theorem drainLoop_noop (fuel : Nat) (stack : List ObjId) (sp pfunc : Nat)
    (h : sp ≤ pfunc) : drainLoop fuel stack sp pfunc = (sp, []) := by
  cases fuel with
  | zero => rfl
  | succ k => simp [drainLoop, Nat.not_lt.mpr h]

/-- The copy loop fills exactly `n` locals. -/
theorem fastlocalsOf_length (stack : List ObjId) (sp n : Nat) :
    (fastlocalsOf stack sp n).length = n := by
  simp [fastlocalsOf]

/-- Peeling the first copied local: local `0` is the word just below the
callee slot. -/
theorem fastlocalsOf_succ (l : List ObjId) (sp n : Nat) :
    fastlocalsOf l sp (n + 1) = l.getD (sp + n) 0 :: fastlocalsOf l sp n := by
  unfold fastlocalsOf
  rw [List.range_succ_eq_map, List.map_cons, List.map_map]
  have h0 : sp + (n + 1) - 1 - 0 = sp + n := by omega
  rw [h0]
  congr 1
  apply List.map_congr_left
  intro i _
  simp only [Function.comp]
  have : sp + (n + 1) - 1 - (i + 1) = sp + n - 1 - i := by omega
  rw [this]

/-- Writing at or above `sp + n` does not change the copied locals. -/
theorem fastlocalsOf_set_of_le (l : List ObjId) (j v sp n : Nat)
    (h : sp + n ≤ j) :
    fastlocalsOf (l.set j v) sp n = fastlocalsOf l sp n := by
  unfold fastlocalsOf
  apply List.map_congr_left
  intro i hi
  rw [List.mem_range] at hi
  rw [List.getD_eq_getElem?_getD, List.getD_eq_getElem?_getD,
    List.getElem?_set_ne (by omega)]

/-- Reading the locals from index `0` reverses the first `n` stack
words. -/
theorem fastlocalsOf_eq_take_reverse (l : List ObjId) (n : Nat)
    (h : n ≤ l.length) :
    fastlocalsOf l 0 n = (l.take n).reverse := by
  apply List.ext_getElem
  · simp [fastlocalsOf]
    omega
  · intro i h1 h2
    simp only [fastlocalsOf, List.getElem_map, List.getElem_range,
      List.getElem_reverse, List.getElem_take, List.length_take] at h1 ⊢
    rw [List.getD_eq_getElem?_getD,
      List.getElem?_eq_getElem (by simp [fastlocalsOf] at h1; omega)]
    simp only [Option.getD_some]
    congr 1
    simp [fastlocalsOf] at h1
    omega

/-- Full characterization of `fast_function` on its fast path: the
locals are copied (each with an extra `Py_INCREF`), the frame is
executed, the recursion-depth bump brackets the frame release, the stack
index is untouched. -/
theorem fast_function_fast_eq (host : Host) (fn : PyFunc) (stack : List ObjId)
    (sp n na : Nat) (heli : fastEligible fn n 0 = true)
    (hfr : host.frameNewOk = true) :
    fast_function host fn stack sp n na 0 =
      { x := host.evalFrame fn.code fn.globals (fastlocalsOf stack sp n),
        sp := sp,
        tr := (fastlocalsOf stack sp n).map Ev.inc
          ++ [Ev.evalFrame (fastlocalsOf stack sp n), Ev.recIncr]
          ++ (fastlocalsOf stack sp n).map Ev.dec ++ [Ev.recDecr],
        err := extErr (host.evalFrame fn.code fn.globals (fastlocalsOf stack sp n)) } := by
  simp [fast_function, heli, hfr]

/-- Dispatch of a plain interpreted function (no method rewrite) whose
call is fast-path eligible: full characterization of the bridge's
output.  Note that the final index equals `sp` — the cleanup loop's
guard `pp_stack > pfunc` is false (`sp ≤ sp + na`), so nothing in the
span is released by it. -/
theorem call_function_pyfunc_fast (host : Host) (env : PyEnv)
    (stack : List ObjId) (sp na : Nat) (fn : PyFunc)
    (henv : env (stack.getD (sp + na) 0) = ObjKind.pyfunc fn)
    (heli : fastEligible fn na 0 = true)
    (hfr : host.frameNewOk = true)
    (hle : na ≤ 255) :
    call_function host env stack sp na =
      { result := host.evalFrame fn.code fn.globals (fastlocalsOf stack sp na),
        sp := sp,
        stackF := stack,
        trace := Ev.inc (stack.getD (sp + na) 0) ::
          ((fastlocalsOf stack sp na).map Ev.inc
            ++ Ev.evalFrame (fastlocalsOf stack sp na) :: Ev.recIncr ::
              ((fastlocalsOf stack sp na).map Ev.dec
                ++ [Ev.recDecr, Ev.dec (stack.getD (sp + na) 0)])),
        err := extErr (host.evalFrame fn.code fn.globals (fastlocalsOf stack sp na)) } := by
  have hmod : na % 256 = na := Nat.mod_eq_of_lt (by omega)
  have hdiv : na / 256 = 0 := Nat.div_eq_of_lt (by omega)
  unfold call_function
  have hd := drainLoop_noop (stack.length + 1) stack sp (sp + na)
    (Nat.le_add_right sp na)
  simp only [List.getD_eq_getElem?_getD] at henv
  simp only [hmod, hdiv, Nat.zero_mod, Nat.mul_zero, Nat.add_zero]
  simp [PyCFunction_Check, PyMethod_Check, PyFunction_Check, PyFunction_GET, henv,
    fast_function_fast_eq host fn stack sp na na heli hfr, hd]

/-- The locals copied after the bound-method rewrite: the instance
(written into the callee slot) followed by the original positional
arguments in declared order. -/
theorem fastlocalsOf_after_rewrite (stack : List ObjId) (sp na : Nat)
    (selfI : ObjId) (hlen : sp + na < stack.length) :
    fastlocalsOf (stack.set (sp + na) selfI) sp (na + 1) =
      selfI :: fastlocalsOf stack sp na := by
  rw [fastlocalsOf_succ, fastlocalsOf_set_of_le _ _ _ _ _ (Nat.le_refl _)]
  congr 1
  simp [List.getD_eq_getElem?_getD, List.getElem?_set_self hlen]

/-- Dispatch of an instance-bound method whose underlying function is
fast-path eligible for `na + 1` arguments: the callee slot is rewritten
to the instance, fresh references to the instance and the function are
acquired, and the function executes with the instance prepended as the
first positional argument. -/
theorem call_function_method_fast (host : Host) (env : PyEnv)
    (stack : List ObjId) (sp na : Nat) (selfI gId : ObjId) (fn : PyFunc)
    (henv : env (stack.getD (sp + na) 0) = ObjKind.method (some selfI) gId)
    (hg : env gId = ObjKind.pyfunc fn)
    (heli : fastEligible fn (na + 1) 0 = true)
    (hfr : host.frameNewOk = true)
    (hle : na ≤ 255)
    (hlen : sp + na < stack.length) :
    call_function host env stack sp na =
      { result := host.evalFrame fn.code fn.globals
          (selfI :: fastlocalsOf stack sp na),
        sp := sp,
        stackF := stack.set (sp + na) selfI,
        trace := Ev.inc selfI :: Ev.inc gId :: Ev.dec (stack.getD (sp + na) 0) ::
          (((selfI :: fastlocalsOf stack sp na).map Ev.inc
            ++ Ev.evalFrame (selfI :: fastlocalsOf stack sp na) :: Ev.recIncr ::
              ((selfI :: fastlocalsOf stack sp na).map Ev.dec ++ [Ev.recDecr]))
            ++ [Ev.dec gId]),
        err := extErr (host.evalFrame fn.code fn.globals
          (selfI :: fastlocalsOf stack sp na)) } := by
  have hmod : na % 256 = na := Nat.mod_eq_of_lt (by omega)
  have hdiv : na / 256 = 0 := Nat.div_eq_of_lt (by omega)
  have hd := drainLoop_noop (stack.length + 1) (stack.set (sp + na) selfI)
    sp (sp + na) (Nat.le_add_right sp na)
  have hloc := fastlocalsOf_after_rewrite stack sp na selfI hlen
  unfold call_function
  simp only [List.getD_eq_getElem?_getD] at henv
  simp only [hmod, hdiv, Nat.zero_mod, Nat.mul_zero, Nat.add_zero]
  simp [PyCFunction_Check, PyMethod_Check, PyMethod_GET_SELF,
    PyMethod_GET_FUNCTION, PyFunction_Check, PyFunction_GET, henv, hg,
    fast_function_fast_eq host fn (stack.set (sp + na) selfI) sp (na + 1) (na + 1) heli hfr,
    hloc, hd]

/-! ## Claim theorems -/

/-- C7: For every native restricted callable declaring the no-argument
convention (`METH_NOARGS`), called with `nk = 0` and `na ≠ 0`, dispatch
fails with the argument-count `TypeError` whose message names the
callable, states that it takes no arguments, and gives the actual
count. -/
theorem c7_noargs_mismatch (host : Host) (env : PyEnv) (stack : List ObjId)
    (sp na : Nat) (name : String) (cs : Option ObjId)
    (henv : env (stack.getD (sp + na) 0) = ObjKind.cfunc METH_NOARGS name cs)
    (hle : na ≤ 255) (hna : na ≠ 0) :
    (call_function host env stack sp na).result = none ∧
    (call_function host env stack sp na).err =
      some (PyErr.typeError
        (name ++ "() takes no arguments (" ++ toString na ++ " given)")) := by
  have hmod : na % 256 = na := Nat.mod_eq_of_lt (by omega)
  have hdiv : na / 256 = 0 := Nat.div_eq_of_lt (by omega)
  have hd := drainLoop_noop (stack.length + 1) stack sp (sp + na)
    (Nat.le_add_right sp na)
  have h1 : (METH_NOARGS &&& (METH_NOARGS ||| METH_O) != 0) = true := by decide
  have h2 : (METH_NOARGS &&& METH_NOARGS != 0) = true := by decide
  have h3 : (METH_NOARGS &&& METH_O != 0) = false := by decide
  have h4 : (na == 0) = false := by simp [hna]
  unfold call_function
  simp only [List.getD_eq_getElem?_getD] at henv
  simp only [hmod, hdiv, Nat.zero_mod, Nat.mul_zero, Nat.add_zero]
  simp [PyCFunction_Check, PyCFunction_GET_FLAGS, PyCFunction_GET_NAME, henv,
    h1, h2, h3, h4, err_args, hd]
  intro h
  exact absurd h (by decide)

/-- C7 witness: a `METH_NOARGS` C function called with one positional
argument fails with a `TypeError` whose message contains the callable's
name and the literal count `1`. -/
theorem c7_noargs_mismatch_witness :
    env1 (List.getD [5, 7] (0 + 1) 0) = ObjKind.cfunc METH_NOARGS "g" none ∧
    (1 : Nat) ≤ 255 ∧ (1 : Nat) ≠ 0 ∧
    ((call_function hostOk env1 [5, 7] 0 1).result = none ∧
      (call_function hostOk env1 [5, 7] 0 1).err =
        some (PyErr.typeError
          ("g" ++ "() takes no arguments (" ++ toString (1 : Nat) ++ " given)"))) ∧
    strContains "g() takes no arguments (1 given)" "1" = true ∧
    strContains "g() takes no arguments (1 given)" "g" = true :=
  ⟨by decide, by decide, by decide,
    c7_noargs_mismatch hostOk env1 [5, 7] 0 1 "g" none (by decide) (by decide)
      (by decide),
    by decide, by decide⟩

/-- C10: For every native restricted callable declaring the
exactly-one-argument convention (`METH_O`), called with `nk = 0` and
`na ≠ 1`, dispatch fails with the argument-count `TypeError` whose
message names the callable, states that it takes exactly one argument,
and gives the actual count. -/
theorem c10_metho_mismatch (host : Host) (env : PyEnv) (stack : List ObjId)
    (sp na : Nat) (name : String) (cs : Option ObjId)
    (henv : env (stack.getD (sp + na) 0) = ObjKind.cfunc METH_O name cs)
    (hle : na ≤ 255) (hna : na ≠ 1) :
    (call_function host env stack sp na).result = none ∧
    (call_function host env stack sp na).err =
      some (PyErr.typeError
        (name ++ "() takes exactly one argument (" ++ toString na ++ " given)")) := by
  have hmod : na % 256 = na := Nat.mod_eq_of_lt (by omega)
  have hdiv : na / 256 = 0 := Nat.div_eq_of_lt (by omega)
  have hd := drainLoop_noop (stack.length + 1) stack sp (sp + na)
    (Nat.le_add_right sp na)
  have h1 : (METH_O &&& (METH_NOARGS ||| METH_O) != 0) = true := by decide
  have h2 : (METH_O &&& METH_NOARGS != 0) = false := by decide
  have h3 : (METH_O &&& METH_O != 0) = true := by decide
  have h4 : (na == 1) = false := by simp [hna]
  unfold call_function
  simp only [List.getD_eq_getElem?_getD] at henv
  simp only [hmod, hdiv, Nat.zero_mod, Nat.mul_zero, Nat.add_zero]
  simp [PyCFunction_Check, PyCFunction_GET_FLAGS, PyCFunction_GET_NAME, henv,
    h1, h2, h3, h4, err_args, hd]

/-- C10 witness: a `METH_O` C function called with zero positional
arguments fails with a `TypeError` naming the callable, stating it takes
exactly one argument, with the actual count `0`. -/
theorem c10_metho_mismatch_witness :
    env1 (List.getD [8] (0 + 0) 0) = ObjKind.cfunc METH_O "h" none ∧
    (0 : Nat) ≤ 255 ∧ (0 : Nat) ≠ 1 ∧
    ((call_function hostOk env1 [8] 0 0).result = none ∧
      (call_function hostOk env1 [8] 0 0).err =
        some (PyErr.typeError
          ("h" ++ "() takes exactly one argument (" ++ toString (0 : Nat) ++ " given)"))) ∧
    strContains "h() takes exactly one argument (0 given)" "h" = true ∧
    strContains "h() takes exactly one argument (0 given)" "0" = true :=
  ⟨by decide, by decide, by decide,
    c10_metho_mismatch hostOk env1 [8] 0 0 "h" none (by decide) (by decide)
      (by decide),
    by decide, by decide⟩

/-- C5: Invoking the callable produced by the Executable Code Loader
ignores all caller-supplied positional and keyword arguments and
unconditionally calls the recorded entry point with zero parameters,
returning its result or propagating the failure it signals. -/
theorem c5_call_ignores_args (entryFn : Nat → Option ObjId)
    (self : CompiledCode) (args args2 : List ObjId)
    (kw kw2 : Option (List (ObjId × ObjId))) :
    CompiledCode_call entryFn self args kw = entryFn self.entryAddr ∧
    CompiledCode_call entryFn self args kw = CompiledCode_call entryFn self args2 kw2 :=
  ⟨rfl, rfl⟩

/-- C1 (code defect, concrete evaluation): the smallest dispatch — a
`METH_NOARGS` C function, `na = nk = 0`, callee in slot `0` — succeeds,
yet the stack index is *not* advanced past the `n + 1 = 1` slot span
(it stays at `0` instead of `1`) and the callee slot object `7` receives
no release (`netRefs = 0`, not `1`): the cleanup loop
`while (pp_stack > pfunc)` can never fire, because `EXT_POP` increments
the pointer, so it approaches `pfunc` from below and the strict
comparison is never true. -/
theorem c1_drain_never_fires :
    (call_function hostOk env1 [7] 0 0).result = some 40 ∧
    (call_function hostOk env1 [7] 0 0).sp = 0 ∧
    (call_function hostOk env1 [7] 0 0).trace = [] ∧
    netRefs (call_function hostOk env1 [7] 0 0).trace 7 = 0 := by
  decide

/-- C2 (code defect, concrete evaluation): a call with `na = 0`,
`nk = 2` whose two keyword pairs share the key object `3` (stack
`[v₂, k, v₁, k, callee]`, callee `12`) raises the duplicate-keyword
`TypeError` naming the callable and the key, and the popped pair slots
are each released exactly once — but the callee slot is never released
(`netRefs = 0`) and the stack index ends at `2·nk = 4`, not the required
`n + 1 = 5`. -/
theorem c2_dupkw_error_but_leak :
    (call_function hostOk env1 [4, 3, 5, 3, 12] 0 512).result = none ∧
    (call_function hostOk env1 [4, 3, 5, 3, 12] 0 512).err =
      some (PyErr.typeError "f() got multiple values for keyword argument 'x'") ∧
    (call_function hostOk env1 [4, 3, 5, 3, 12] 0 512).sp = 4 ∧
    netRefs (call_function hostOk env1 [4, 3, 5, 3, 12] 0 512).trace 4 = 1 ∧
    netRefs (call_function hostOk env1 [4, 3, 5, 3, 12] 0 512).trace 5 = 1 ∧
    netRefs (call_function hostOk env1 [4, 3, 5, 3, 12] 0 512).trace 3 = 2 ∧
    netRefs (call_function hostOk env1 [4, 3, 5, 3, 12] 0 512).trace 12 = 0 := by
  decide

/-- C3 counterexample: on the plain-function fast path (eligible
function `9`, one argument `5`), the copy loop performs an extra retain
on the argument — the trace records a `Py_INCREF` of `5`, contradicting
"no extra retain performed on any argument". -/
theorem c3_extra_retain_cex :
    (call_function hostOk env1 [5, 9] 0 1).trace.count (Ev.inc 5) = 1 := by
  decide

/-- C3 amended: on the fast path the `n` argument slots are copied into
frame-local storage in declared order (local `i` is the stack word at
`sp + n - 1 - i`, i.e. `fastlocalsOf`), but each copy acquires an extra
reference (`Py_INCREF`) which the frame gives back when it is released;
ownership of the original stack references is *not* transferred — the
stack index is left unchanged, the originals being left to the
dispatch-level cleanup. -/
theorem c3_fastpath_copy_retains (host : Host) (fn : PyFunc)
    (stack : List ObjId) (sp n na : Nat)
    (heli : fastEligible fn n 0 = true)
    (hfr : host.frameNewOk = true) :
    (fast_function host fn stack sp n na 0).tr =
      (fastlocalsOf stack sp n).map Ev.inc
        ++ [Ev.evalFrame (fastlocalsOf stack sp n), Ev.recIncr]
        ++ (fastlocalsOf stack sp n).map Ev.dec ++ [Ev.recDecr] ∧
    (fast_function host fn stack sp n na 0).sp = sp := by
  rw [fast_function_fast_eq host fn stack sp n na heli hfr]
  exact ⟨rfl, rfl⟩

/-- C3 amended witness: concrete fast-path call of the one-parameter
function with argument `5`. -/
theorem c3_fastpath_copy_retains_witness :
    fastEligible fn1 1 0 = true ∧ hostOk.frameNewOk = true ∧
    ((fast_function hostOk fn1 [5, 9] 0 1 1 0).tr =
      (fastlocalsOf [5, 9] 0 1).map Ev.inc
        ++ [Ev.evalFrame (fastlocalsOf [5, 9] 0 1), Ev.recIncr]
        ++ (fastlocalsOf [5, 9] 0 1).map Ev.dec ++ [Ev.recDecr] ∧
     (fast_function hostOk fn1 [5, 9] 0 1 1 0).sp = 0) :=
  ⟨by decide, by decide,
    c3_fastpath_copy_retains hostOk fn1 [5, 9] 0 1 1 (by decide) (by decide)⟩

/-- C4 counterexample: dispatching the eligible zero-parameter function
`14`, the frame-execution event occurs strictly before the first
recursion-depth increment (it is among the events preceding any
`recIncr`), so the counter is *not* incremented before the nested frame
is executed; the full trace shows the increment/decrement pair after
execution, around the frame release. -/
theorem c4_eval_before_incr_cex :
    (call_function hostOk env1 [14] 0 0).trace =
      [Ev.inc 14, Ev.evalFrame [], Ev.recIncr, Ev.recDecr, Ev.dec 14] ∧
    Ev.evalFrame [] ∈
      (call_function hostOk env1 [14] 0 0).trace.takeWhile
        (fun e => !(e == Ev.recIncr)) := by
  decide

/-- C4 amended: on the fast path the recursion-depth counter is
incremented *after* the nested frame's execution and decremented after
the frame object's release — the increment/decrement pair brackets the
frame release (the `Py_DECREF` of the frame, which frees the copied
locals), not the execution. -/
theorem c4_rec_brackets_frame_release (host : Host) (fn : PyFunc)
    (stack : List ObjId) (sp n na : Nat)
    (heli : fastEligible fn n 0 = true)
    (hfr : host.frameNewOk = true) :
    (fast_function host fn stack sp n na 0).tr =
      ((fastlocalsOf stack sp n).map Ev.inc
          ++ [Ev.evalFrame (fastlocalsOf stack sp n)])
        ++ Ev.recIncr :: ((fastlocalsOf stack sp n).map Ev.dec ++ [Ev.recDecr]) := by
  rw [fast_function_fast_eq host fn stack sp n na heli hfr]
  simp

/-- C4 amended witness: concrete fast-path call of the zero-parameter
function. -/
theorem c4_rec_brackets_frame_release_witness :
    fastEligible fn0 0 0 = true ∧ hostOk.frameNewOk = true ∧
    (fast_function hostOk fn0 [14] 0 0 0 0).tr =
      ((fastlocalsOf [14] 0 0).map Ev.inc
          ++ [Ev.evalFrame (fastlocalsOf [14] 0 0)])
        ++ Ev.recIncr :: ((fastlocalsOf [14] 0 0).map Ev.dec ++ [Ev.recDecr]) :=
  ⟨by decide, by decide,
    c4_rec_brackets_frame_release hostOk fn0 [14] 0 0 0 (by decide) (by decide)⟩

/-- A retain immediately undone by a release nets to zero. -/
theorem netRefs_inc_dec (o : ObjId) : netRefs [Ev.inc o, Ev.dec o] o = 0 := by
  have h1 : (Ev.inc o == Ev.dec o) = false := by
    rw [beq_eq_false_iff_ne]
    simp
  have h2 : (Ev.dec o == Ev.inc o) = false := by
    rw [beq_eq_false_iff_ne]
    simp
  simp [netRefs, List.count_cons, h1, h2]

/-- C6 counterexample: on a filesystem where `open` and the length
determination succeed but `mmap` fails, construction returns no object
but the raised error is the bare `OSError` (`PyErr_SetFromErrno`), which
does not carry the failing path — not the `IOError`-with-filename the
claim requires for every step. -/
theorem c6_mmap_err_lacks_path_cex :
    (CompiledCode_new fsMmapFail "blob.bin" 9).1 = none ∧
    (CompiledCode_new fsMmapFail "blob.bin" 9).2.1 = some PyErr.osError ∧
    (CompiledCode_new fsMmapFail "blob.bin" 9).2.1 ≠
      some (PyErr.ioError "blob.bin") := by
  decide

/-- C6 amended: every construction failure (open, length determination,
map) discards the partially built object — the retained artifact
reference is released, netting to zero — and returns no object with an
error raised; `open` and length-determination failures raise `IOError`
carrying the failing path, while a `map` failure raises `OSError`
*without* the path. -/
theorem c6_construct_failure (fs : FS) (filename : String) (codeObj : ObjId)
    (halloc : fs.allocOk = true) :
    ((CompiledCode_new fs filename codeObj).1 = none ↔
      (CompiledCode_new fs filename codeObj).2.1.isSome = true) ∧
    ((CompiledCode_new fs filename codeObj).1 = none →
      netRefs (CompiledCode_new fs filename codeObj).2.2 codeObj = 0) ∧
    (fs.openFile filename = none →
      (CompiledCode_new fs filename codeObj).1 = none ∧
      (CompiledCode_new fs filename codeObj).2.1 =
        some (PyErr.ioError filename)) ∧
    (∀ fd, fs.openFile filename = some fd → fs.seekEnd fd = none →
      (CompiledCode_new fs filename codeObj).1 = none ∧
      (CompiledCode_new fs filename codeObj).2.1 =
        some (PyErr.ioError filename)) ∧
    (∀ fd len, fs.openFile filename = some fd → fs.seekEnd fd = some len →
      fs.seekSetOk fd = false →
      (CompiledCode_new fs filename codeObj).1 = none ∧
      (CompiledCode_new fs filename codeObj).2.1 =
        some (PyErr.ioError filename)) ∧
    (∀ fd len, fs.openFile filename = some fd → fs.seekEnd fd = some len →
      fs.seekSetOk fd = true → fs.mmapRes fd len = none →
      (CompiledCode_new fs filename codeObj).1 = none ∧
      (CompiledCode_new fs filename codeObj).2.1 = some PyErr.osError) := by
  have hnet := netRefs_inc_dec codeObj
  refine ⟨?_, ?_, ?_, ?_, ?_, ?_⟩
  · rcases hopen : fs.openFile filename with _ | fd
    · simp [CompiledCode_new, halloc, hopen]
    · rcases hseek : fs.seekEnd fd with _ | len
      · simp [CompiledCode_new, halloc, hopen, hseek]
      · cases hset : fs.seekSetOk fd
        · simp [CompiledCode_new, halloc, hopen, hseek, hset]
        · rcases hmm : fs.mmapRes fd len with _ | addr
          · simp [CompiledCode_new, halloc, hopen, hseek, hset, hmm]
          · simp [CompiledCode_new, halloc, hopen, hseek, hset, hmm]
  · intro hfail
    rcases hopen : fs.openFile filename with _ | fd
    · simp [CompiledCode_new, halloc, hopen, hnet]
    · rcases hseek : fs.seekEnd fd with _ | len
      · simp [CompiledCode_new, halloc, hopen, hseek, hnet]
      · cases hset : fs.seekSetOk fd
        · simp [CompiledCode_new, halloc, hopen, hseek, hset, hnet]
        · rcases hmm : fs.mmapRes fd len with _ | addr
          · simp [CompiledCode_new, halloc, hopen, hseek, hset, hmm, hnet]
          · simp [CompiledCode_new, halloc, hopen, hseek, hset, hmm] at hfail
  · intro hopen
    simp [CompiledCode_new, halloc, hopen]
  · intro fd hopen hseek
    simp [CompiledCode_new, halloc, hopen, hseek]
  · intro fd len hopen hseek hset
    simp [CompiledCode_new, halloc, hopen, hseek, hset]
  · intro fd len hopen hseek hset hmm
    simp [CompiledCode_new, halloc, hopen, hseek, hset, hmm]

/-- C6 amended witness: loading a nonexistent path yields `IOError`
carrying the path and returns no object, the artifact reference netting
to zero; a length-determination (`lseek`) failure likewise yields
`IOError` carrying the path and no object. -/
theorem c6_construct_failure_witness :
    fsOpenFail.allocOk = true ∧
    (((CompiledCode_new fsOpenFail "nope.bin" 9).1 = none ↔
        (CompiledCode_new fsOpenFail "nope.bin" 9).2.1.isSome = true) ∧
      ((CompiledCode_new fsOpenFail "nope.bin" 9).1 = none →
        netRefs (CompiledCode_new fsOpenFail "nope.bin" 9).2.2 9 = 0) ∧
      (fsOpenFail.openFile "nope.bin" = none →
        (CompiledCode_new fsOpenFail "nope.bin" 9).1 = none ∧
        (CompiledCode_new fsOpenFail "nope.bin" 9).2.1 =
          some (PyErr.ioError "nope.bin")) ∧
      (∀ fd, fsOpenFail.openFile "nope.bin" = some fd →
        fsOpenFail.seekEnd fd = none →
        (CompiledCode_new fsOpenFail "nope.bin" 9).1 = none ∧
        (CompiledCode_new fsOpenFail "nope.bin" 9).2.1 =
          some (PyErr.ioError "nope.bin")) ∧
      (∀ fd len, fsOpenFail.openFile "nope.bin" = some fd →
        fsOpenFail.seekEnd fd = some len →
        fsOpenFail.seekSetOk fd = false →
        (CompiledCode_new fsOpenFail "nope.bin" 9).1 = none ∧
        (CompiledCode_new fsOpenFail "nope.bin" 9).2.1 =
          some (PyErr.ioError "nope.bin")) ∧
      (∀ fd len, fsOpenFail.openFile "nope.bin" = some fd →
        fsOpenFail.seekEnd fd = some len →
        fsOpenFail.seekSetOk fd = true → fsOpenFail.mmapRes fd len = none →
        (CompiledCode_new fsOpenFail "nope.bin" 9).1 = none ∧
        (CompiledCode_new fsOpenFail "nope.bin" 9).2.1 = some PyErr.osError)) ∧
    fsSeekFail.allocOk = true ∧
    (∀ fd, fsSeekFail.openFile "trunc.bin" = some fd →
      fsSeekFail.seekEnd fd = none →
      (CompiledCode_new fsSeekFail "trunc.bin" 9).1 = none ∧
      (CompiledCode_new fsSeekFail "trunc.bin" 9).2.1 =
        some (PyErr.ioError "trunc.bin")) :=
  ⟨by decide, c6_construct_failure fsOpenFail "nope.bin" 9 (by decide),
    by decide, (c6_construct_failure fsSeekFail "trunc.bin" 9 (by decide)).2.2.2.1⟩

/-- C9: For every interpreted function with zero defaults, zero
keyword-only parameters, no closure (the exact-flag eligibility test)
and exactly `na` required positional parameters, called with exactly
`na` positional arguments and `nk = 0`, the bridge's fast path produces
the same result as the host's general call protocol
(`generalCallSpec`, modelled from the spec) applied to the positional
slice in declared order. -/
theorem c9_fast_equals_general (host : Host) (env : PyEnv)
    (stack : List ObjId) (sp na : Nat) (fn : PyFunc)
    (henv : env (stack.getD (sp + na) 0) = ObjKind.pyfunc fn)
    (heli : fastEligible fn na 0 = true)
    (hfr : host.frameNewOk = true)
    (hle : na ≤ 255) :
    (call_function host env stack sp na).result =
      generalCallSpec host fn (fastlocalsOf stack sp na) := by
  rw [call_function_pyfunc_fast host env stack sp na fn henv heli hfr hle]
  have hlen := fastlocalsOf_length stack sp na
  have h := heli
  unfold fastEligible at h
  simp only [Bool.and_eq_true, beq_iff_eq] at h
  obtain ⟨⟨⟨⟨hdefs, hargc⟩, hkw⟩, -⟩, -⟩ := h
  unfold generalCallSpec
  rw [if_pos ⟨hdefs, hkw, by rw [hlen]; exact hargc⟩]

/-- C9 witness: the one-parameter function called with one positional
argument through the bridge equals the general protocol's result. -/
theorem c9_fast_equals_general_witness :
    env1 (List.getD [5, 9] (0 + 1) 0) = ObjKind.pyfunc fn1 ∧
    fastEligible fn1 1 0 = true ∧ hostOk.frameNewOk = true ∧ (1 : Nat) ≤ 255 ∧
    (call_function hostOk env1 [5, 9] 0 1).result =
      generalCallSpec hostOk fn1 (fastlocalsOf [5, 9] 0 1) :=
  ⟨by decide, by decide, by decide, by decide,
    c9_fast_equals_general hostOk env1 [5, 9] 0 1 fn1 (by decide) (by decide)
      (by decide) (by decide)⟩

/-- C8: For every call whose callee is an instance-bound method binding
instance `I` to an interpreted function `G` that is fast-path eligible
for `na + 1` arguments: the callee slot is replaced by `I`, fresh
references to `I` and `G` are acquired, and the result equals both
executing `G` with `I` prepended as first positional argument and an
ordinary dispatch of `G` itself with `na + 1` positional arguments
(`I` in the first-argument slot) — i.e. `na` (and `n`) effectively
increase by one. -/
theorem c8_bound_method (host : Host) (env : PyEnv) (stack : List ObjId)
    (sp na : Nat) (selfI gId : ObjId) (fn : PyFunc)
    (henv : env (stack.getD (sp + na) 0) = ObjKind.method (some selfI) gId)
    (hg : env gId = ObjKind.pyfunc fn)
    (heli : fastEligible fn (na + 1) 0 = true)
    (hfr : host.frameNewOk = true)
    (hle : na ≤ 254)
    (hlen : sp + na < stack.length) :
    (call_function host env stack sp na).result =
      host.evalFrame fn.code fn.globals (selfI :: fastlocalsOf stack sp na) ∧
    (call_function host env stack sp na).stackF = stack.set (sp + na) selfI ∧
    Ev.inc selfI ∈ (call_function host env stack sp na).trace ∧
    Ev.inc gId ∈ (call_function host env stack sp na).trace ∧
    (call_function host env stack sp na).result =
      (call_function host env
        ((fastlocalsOf stack sp na).reverse ++ [selfI, gId]) 0 (na + 1)).result := by
  have h1 := call_function_method_fast host env stack sp na selfI gId fn
    henv hg heli hfr (by omega) hlen
  have hrevlen : ((fastlocalsOf stack sp na).reverse).length = na := by
    simp [fastlocalsOf_length]
  have henv2 : env (((fastlocalsOf stack sp na).reverse ++ [selfI, gId]).getD
      (0 + (na + 1)) 0) = ObjKind.pyfunc fn := by
    have hg2 : ((fastlocalsOf stack sp na).reverse ++ [selfI, gId]).getD
        (0 + (na + 1)) 0 = gId := by
      rw [List.getD_eq_getElem?_getD, Nat.zero_add,
        List.getElem?_append_right (by omega)]
      rw [hrevlen]
      simp
    rw [hg2, hg]
  have h2 := call_function_pyfunc_fast host env
    ((fastlocalsOf stack sp na).reverse ++ [selfI, gId]) 0 (na + 1) fn
    henv2 heli hfr (by omega)
  have hloc2 : fastlocalsOf ((fastlocalsOf stack sp na).reverse ++ [selfI, gId])
      0 (na + 1) = selfI :: fastlocalsOf stack sp na := by
    rw [fastlocalsOf_eq_take_reverse _ _ (by simp [fastlocalsOf_length])]
    have ht : ((fastlocalsOf stack sp na).reverse ++ [selfI, gId]).take (na + 1)
        = (fastlocalsOf stack sp na).reverse ++ [selfI] := by
      rw [show na + 1 = ((fastlocalsOf stack sp na).reverse).length + 1 from by
        rw [hrevlen]]
      rw [List.take_append]
      rfl
    rw [ht]
    simp
  refine ⟨by rw [h1], by rw [h1], ?_, ?_, ?_⟩
  · rw [h1]
    simp
  · rw [h1]
    simp
  · rw [h1, h2, hloc2]

/-- C8 witness: bound method `10` (instance `11`, function `15`) with
two extra positional arguments — equivalent to invoking the function
with the instance prepended: `G(I, arg1, arg2)`. -/
theorem c8_bound_method_witness :
    env1 (List.getD [6, 5, 10] (0 + 2) 0) = ObjKind.method (some 11) 15 ∧
    env1 15 = ObjKind.pyfunc fn2 ∧
    fastEligible fn2 (2 + 1) 0 = true ∧
    hostOk.frameNewOk = true ∧ (2 : Nat) ≤ 254 ∧ 0 + 2 < [6, 5, 10].length ∧
    ((call_function hostOk env1 [6, 5, 10] 0 2).result =
        hostOk.evalFrame fn2.code fn2.globals (11 :: fastlocalsOf [6, 5, 10] 0 2) ∧
      (call_function hostOk env1 [6, 5, 10] 0 2).stackF = [6, 5, 10].set (0 + 2) 11 ∧
      Ev.inc 11 ∈ (call_function hostOk env1 [6, 5, 10] 0 2).trace ∧
      Ev.inc 15 ∈ (call_function hostOk env1 [6, 5, 10] 0 2).trace ∧
      (call_function hostOk env1 [6, 5, 10] 0 2).result =
        (call_function hostOk env1
          ((fastlocalsOf [6, 5, 10] 0 2).reverse ++ [11, 15]) 0 (2 + 1)).result) :=
  ⟨by decide, by decide, by decide, by decide, by decide, by decide,
    c8_bound_method hostOk env1 [6, 5, 10] 0 2 11 15 fn2 (by decide) (by decide)
      (by decide) (by decide) (by decide) (by decide)⟩

/-- C8 (code defect, concrete evaluation): for a bound method binding
instance `21` to a function `22` that has a declared default value
(`argdefs` non-NULL, so the fast path is ineligible), with `na = 2`
extra positional arguments `5, 6`, dispatch goes through
`fast_function`'s general branch, which hands `PyEval_EvalCodeEx` the
words read *ascending* from `(*pp_stack) + n - 1` — the rewritten
callee slot followed by words beyond the argument frame (`[21, 0, 0]`
in the model, the out-of-frame reads defaulting to `0`) — instead of
the declared-order positional slice with the instance prepended
(`[21, 5, 6]`).  The encoding host makes the marshalled sequence
observable in the result: it equals the encoding of `[21, 0, 0]` and
differs from the encoding of `G(I, arg1, arg2)`'s argument list, so the
result does not equal invoking the function with the instance
prepended. -/
theorem c8_method_general_path_wrong_args :
    (call_function hostEnc env2 [6, 5, 20] 0 2).result = some 1210000 ∧
    some 1210000 =
      hostEnc.evalCodeEx fn3.code fn3.globals [21, 0, 0] 3 [] 0 [99] 1 none none ∧
    (call_function hostEnc env2 [6, 5, 20] 0 2).result ≠
      hostEnc.evalCodeEx fn3.code fn3.globals [21, 5, 6] 3 [] 0 [99] 1 none none := by
  decide
